import Mathlib

/-!
# Shared storage: the SQLite-backed key-value store of `sst_main.cpp`

The development embeds `CDatabase` (`createDatabase`, `close`, `open`,
`setValue`, `getValue`), `CJNIString::c_str` and the JNI entry point
`sstCreate` as pure functions that pass the object and the outside world
explicitly.

The outside world (POSIX file calls and the embedded SQL engine) is not code
of the repository.  It is described here by a small executable model that
follows the documented behaviour of the calls the wrapper makes:

* the operating system resolves every path to the identity of the file it
  names (normalisation such as `./`, links); two paths name the same file
  exactly when they resolve to the same identity, and files are stored by
  identity;
* a database file holds named tables of `(KEY, VALUE)` text rows;
* every engine call that can fail for environmental reasons (I/O error, out of
  memory, file cannot be opened) reads its outcome from a script of faults
  carried by the world, so that theorems quantify over every failure path;
* every call made is appended to a trace.

`const char*` arguments are C strings and are modelled by `String`.
-/

namespace SharedStorage

/-! ## Result codes -/

abbrev SQLITE_OK : Nat := 0
abbrev SQLITE_ERROR : Nat := 1
abbrev SQLITE_BUSY : Nat := 5
abbrev SQLITE_NOMEM : Nat := 7
abbrev SQLITE_IOERR : Nat := 10
abbrev SQLITE_CANTOPEN : Nat := 14
abbrev SQLITE_MISUSE : Nat := 21
abbrev SQLITE_RANGE : Nat := 25
abbrev SQLITE_NOTADB : Nat := 26
abbrev SQLITE_ROW : Nat := 100
abbrev SQLITE_DONE : Nat := 101

/-- English text the engine associates with a result code. -/
def sqlite3_errstr (rc : Nat) : String :=
  if rc = SQLITE_OK then "not an error"
  else if rc = SQLITE_ERROR then "SQL logic error"
  else if rc = SQLITE_BUSY then "database is locked"
  else if rc = SQLITE_NOMEM then "out of memory"
  else if rc = SQLITE_IOERR then "disk I/O error"
  else if rc = SQLITE_CANTOPEN then "unable to open database file"
  else if rc = SQLITE_MISUSE then "bad parameter or other API misuse"
  else if rc = SQLITE_RANGE then "column index out of range"
  else if rc = SQLITE_NOTADB then "file is not a database"
  else if rc = SQLITE_ROW then "another row available"
  else if rc = SQLITE_DONE then "no more rows available"
  else "unknown error"

/-! ## Files and databases -/

/-- Rows of a two-column text table: `(KEY, VALUE)`. -/
abbrev Rows := List (String × String)

/-- Name of the only table the wrapper uses. -/
abbrev KEYS : String := "KEYS"

/-- What a file holds: a database (its tables by name) or anything else. -/
inductive Content where
  | database (tables : List (String × Rows))
  | other
  deriving DecidableEq, Repr

/-- A file: permission bits and content. -/
structure File where
  mode : Nat
  content : Content
  deriving DecidableEq, Repr

/-- Identity of a file: what the operating system resolves a path to.  Two
different path strings may resolve to the same identity. -/
abbrev FileId := String

/-- The stored files, by identity. -/
abbrev Files := FileId → Option File

/-- The file system as seen through paths: what each path names, if anything. -/
abbrev FS := String → Option File

/-- The files with `f` stored under identity `i`. -/
def Files.write (files : Files) (i : FileId) (f : File) : Files :=
  fun j => if j = i then some f else files j

/-- The files with nothing under identity `i`. -/
def Files.remove (files : Files) (i : FileId) : Files :=
  fun j => if j = i then none else files j

/-- The file the engine creates for a new database: empty, default mode. -/
def newFile : File := { mode := 0o644, content := Content.database [] }

/-- The three SQL texts of the source. -/
inductive Sql where
  | createKeys
  | upsert
  | select
  deriving DecidableEq, Repr

/-- The statement text as written in the source. -/
def Sql.text : Sql → String
  | Sql.createKeys => "CREATE TABLE IF NOT EXISTS KEYS (KEY TEXT PRIMARY KEY, VALUE TEXT);"
  | Sql.upsert => "INSERT OR REPLACE INTO KEYS (KEY, VALUE) VALUES (?, ?);"
  | Sql.select => "SELECT VALUE FROM KEYS WHERE KEY = ?;"

/-- Number of `?` parameters of a statement. -/
def Sql.params : Sql → Nat
  | Sql.createKeys => 0
  | Sql.upsert => 2
  | Sql.select => 1

/-- Effect of `CREATE TABLE IF NOT EXISTS KEYS`: add an empty table unless present. -/
def createKeysTable (ts : List (String × Rows)) : List (String × Rows) :=
  match ts.lookup KEYS with
  | some _ => ts
  | none => ts ++ [(KEYS, [])]

/-- The tables with the rows of `KEYS` replaced. -/
def setKeysRows (ts : List (String × Rows)) (rows : Rows) : List (String × Rows) :=
  ts.map (fun t => if t.1 = KEYS then (t.1, rows) else t)

/-- Effect of `INSERT OR REPLACE` on the rows: the conflicting rows are deleted
and the new row is inserted. -/
def upsertRow (rows : Rows) (key value : String) : Rows :=
  rows.filter (fun r => decide (r.1 ≠ key)) ++ [(key, value)]

/-! ## Connections, statements, the world -/

/-- A database connection object (what a non-null `sqlite3*` points to). -/
structure Conn where
  path : String
  usable : Bool
  stmts : Nat
  errcode : Nat
  deriving DecidableEq, Repr

/-- A prepared statement object (what a non-null `sqlite3_stmt*` points to). -/
structure Stmt where
  sql : Sql
  key : Option String
  value : Option String
  row : Option String
  rc : Nat
  deriving DecidableEq, Repr

/-- Scripted outcome of one fallible engine call. -/
inductive Fault where
  | ok
  | err
  | errCreated
  | nomem
  deriving DecidableEq, Repr

/-- One entry of the call trace. -/
inductive Call where
  | access (path : String)
  | chmod (path : String) (mode : Nat)
  | unlink (path : String)
  | sqlite3_open (path : String)
  | sqlite3_close
  | sqlite3_exec (sql : Sql)
  | sqlite3_prepare_v2 (sql : Sql)
  | sqlite3_bind_text (idx : Nat) (text : String)
  | sqlite3_step
  | sqlite3_finalize
  deriving DecidableEq, Repr

/-- Everything outside the `CDatabase` object: the stored files, the path
resolution of the operating system, the script of failures, the trace of
calls, the connections a refused `sqlite3_close` left open, and the paths a
failed `unlink` left in place. -/
structure World where
  files : Files
  resolve : String → FileId
  faults : List Fault
  calls : List Call
  leaked : List Conn
  undeleted : List String

/-- What `path` names: the file stored under the identity it resolves to. -/
def World.fs (w : World) : FS := fun path => w.files (w.resolve path)

/-- Append a call to the trace. -/
def World.log (w : World) (c : Call) : World :=
  { w with calls := w.calls ++ [c] }

/-- Read the next scripted outcome; an exhausted script means no failure. -/
def World.nextFault (w : World) : Fault × World :=
  match w.faults with
  | [] => (Fault.ok, w)
  | f :: rest => (f, { w with faults := rest })

/-- No environmental failure is scripted. -/
def World.faultFree (w : World) : Prop := ∀ f ∈ w.faults, f = Fault.ok

instance (w : World) : Decidable w.faultFree := by
  unfold World.faultFree; infer_instance

/-- Result of an engine call: code, output, connection object, world. -/
structure Eng (α : Type) where
  rc : Nat
  out : α
  db : Option Conn
  world : World

/-- Record a result code on the connection. -/
def Conn.setErr (c : Conn) (rc : Nat) : Conn := { c with errcode := rc }

/-! ## POSIX calls -/

/-- Model of `access(path, F_OK)`: 0 when a file exists at `path`, else -1. -/
def access (path : String) (w : World) : Int × World :=
  (if (w.fs path).isSome then 0 else -1, w.log (Call.access path))

/-- Model of `chmod`: set the permission bits of the file `path` names, if any. -/
def chmod (path : String) (mode : Nat) (w : World) : Int × World :=
  match w.fs path with
  | some f => (0, { (w.log (Call.chmod path mode)) with
                    files := w.files.write (w.resolve path) { f with mode := mode } })
  | none => (-1, w.log (Call.chmod path mode))

/-- Model of `unlink`.  When `path` names no file the call fails.  When it
names one, the call reads its outcome from the script: it removes the file and
returns 0 (the file is dropped as a whole: the model does not keep it alive
under another name), or it fails (no permission, read-only or immutable
directory), returns -1, leaves the file in place and the path is recorded in
`undeleted`. -/
def unlink (path : String) (w : World) : Int × World :=
  let w0 := w.log (Call.unlink path)
  match w.fs path with
  | none => (-1, w0)
  | some _ =>
      let fw := w0.nextFault
      match fw.1 with
      | Fault.ok => (0, { fw.2 with files := fw.2.files.remove (w.resolve path) })
      | _ => (-1, { fw.2 with undeleted := path :: fw.2.undeleted })

/-! ## Engine calls -/

/-- The world after the engine made sure `path` names a file. -/
def ensureFile (path : String) (w : World) : World :=
  match w.fs path with
  | some _ => w
  | none => { w with files := w.files.write (w.resolve path) newFile }

/-- Model of `sqlite3_open(path, &db)`.  On success the file is created when
absent and a usable connection is returned.  On failure a connection object is
still returned (to be closed by the caller), except when memory for it cannot
be allocated.  The content of an existing file is not inspected. -/
def sqlite3_open (path : String) (w : World) : Eng Unit :=
  let fw := (w.log (Call.sqlite3_open path)).nextFault
  match fw.1 with
  | Fault.ok =>
      ⟨SQLITE_OK, (), some ⟨path, true, 0, SQLITE_OK⟩, ensureFile path fw.2⟩
  | Fault.err =>
      ⟨SQLITE_CANTOPEN, (), some ⟨path, false, 0, SQLITE_CANTOPEN⟩, fw.2⟩
  | Fault.errCreated =>
      ⟨SQLITE_IOERR, (), some ⟨path, false, 0, SQLITE_IOERR⟩, ensureFile path fw.2⟩
  | Fault.nomem =>
      ⟨SQLITE_NOMEM, (), none, fw.2⟩

/-- Model of `sqlite3_close(db)`: a null handle is a no-op; a connection with
unfinalized statements is not closed and the call reports `SQLITE_BUSY`. -/
def sqlite3_close (db : Option Conn) (w : World) : Nat × World :=
  match db with
  | none => (SQLITE_OK, w.log Call.sqlite3_close)
  | some c =>
      if c.stmts = 0 then (SQLITE_OK, w.log Call.sqlite3_close)
      else (SQLITE_BUSY, { (w.log Call.sqlite3_close) with leaked := c :: w.leaked })

/-- Model of `sqlite3_errmsg(db)`. -/
def sqlite3_errmsg (db : Option Conn) : String :=
  match db with
  | none => sqlite3_errstr SQLITE_NOMEM
  | some c => sqlite3_errstr c.errcode

/-- The tables of the database file behind a connection, or the result code
the engine reports when there is none. -/
def tablesOf (c : Conn) (w : World) : Except Nat (File × List (String × Rows)) :=
  if c.usable then
    match w.fs c.path with
    | none => Except.error SQLITE_IOERR
    | some f =>
        match f.content with
        | Content.other => Except.error SQLITE_NOTADB
        | Content.database ts => Except.ok (f, ts)
  else Except.error SQLITE_MISUSE

/-- Store tables back into the database file behind a connection. -/
def writeTables (c : Conn) (f : File) (ts : List (String × Rows)) (w : World) : World :=
  { w with
    files := w.files.write (w.resolve c.path) { f with content := Content.database ts } }

/-- Model of `sqlite3_exec(db, sql, 0, 0, &errMsg)` for a statement without
parameters; `out` is the message written to `errMsg`. -/
def sqlite3_exec (db : Option Conn) (sql : Sql) (w : World) : Eng String :=
  let w0 := w.log (Call.sqlite3_exec sql)
  match db with
  | none => ⟨SQLITE_MISUSE, sqlite3_errstr SQLITE_MISUSE, none, w0⟩
  | some c =>
      let fw := w0.nextFault
      match fw.1 with
      | Fault.ok =>
          match tablesOf c fw.2 with
          | Except.error rc => ⟨rc, sqlite3_errstr rc, some (c.setErr rc), fw.2⟩
          | Except.ok (f, ts) =>
              match sql with
              | Sql.createKeys =>
                  ⟨SQLITE_OK, "", some (c.setErr SQLITE_OK),
                    writeTables c f (createKeysTable ts) fw.2⟩
              | _ =>
                  ⟨SQLITE_MISUSE, sqlite3_errstr SQLITE_MISUSE,
                    some (c.setErr SQLITE_MISUSE), fw.2⟩
      | _ => ⟨SQLITE_IOERR, sqlite3_errstr SQLITE_IOERR, some (c.setErr SQLITE_IOERR), fw.2⟩

/-- Model of `sqlite3_prepare_v2(db, sql, -1, &stmt, 0)`: compiling a statement
that names `KEYS` needs a readable database with that table; a successful
call adds one statement to the connection. -/
def sqlite3_prepare_v2 (db : Option Conn) (sql : Sql) (w : World) : Eng (Option Stmt) :=
  let w0 := w.log (Call.sqlite3_prepare_v2 sql)
  match db with
  | none => ⟨SQLITE_MISUSE, none, none, w0⟩
  | some c =>
      let fw := w0.nextFault
      match fw.1 with
      | Fault.ok =>
          match tablesOf c fw.2 with
          | Except.error rc => ⟨rc, none, some (c.setErr rc), fw.2⟩
          | Except.ok (_, ts) =>
              if sql = Sql.createKeys ∨ (ts.lookup KEYS).isSome then
                ⟨SQLITE_OK, some ⟨sql, none, none, none, SQLITE_OK⟩,
                  some { c with stmts := c.stmts + 1, errcode := SQLITE_OK }, fw.2⟩
              else ⟨SQLITE_ERROR, none, some (c.setErr SQLITE_ERROR), fw.2⟩
      | _ => ⟨SQLITE_NOMEM, none, some (c.setErr SQLITE_NOMEM), fw.2⟩

/-- Model of `sqlite3_bind_text(stmt, idx, text, -1, SQLITE_STATIC)`. -/
def sqlite3_bind_text (db : Option Conn) (stmt : Option Stmt) (idx : Nat) (text : String)
    (w : World) : Eng (Option Stmt) :=
  let w0 := w.log (Call.sqlite3_bind_text idx text)
  match db, stmt with
  | some c, some st =>
      let fw := w0.nextFault
      match fw.1 with
      | Fault.ok =>
          if idx = 1 ∧ 1 ≤ st.sql.params then
            ⟨SQLITE_OK, some { st with key := some text }, some (c.setErr SQLITE_OK), fw.2⟩
          else if idx = 2 ∧ 2 ≤ st.sql.params then
            ⟨SQLITE_OK, some { st with value := some text }, some (c.setErr SQLITE_OK), fw.2⟩
          else ⟨SQLITE_RANGE, some st, some (c.setErr SQLITE_RANGE), fw.2⟩
      | _ => ⟨SQLITE_NOMEM, some st, some (c.setErr SQLITE_NOMEM), fw.2⟩
  | _, _ => ⟨SQLITE_MISUSE, stmt, db, w0⟩

/-- Model of `sqlite3_step(stmt)`.  The upsert replaces the row of its key and
reports `SQLITE_DONE`; the select reports `SQLITE_ROW` with the value of the
first row of its key, or `SQLITE_DONE` when no row has that key.  A statement
stepped with a parameter left unbound (which the wrapper never does) is
reported as misuse. -/
def sqlite3_step (db : Option Conn) (stmt : Option Stmt) (w : World) : Eng (Option Stmt) :=
  let w0 := w.log Call.sqlite3_step
  match db, stmt with
  | some c, some st =>
      let fw := w0.nextFault
      match fw.1 with
      | Fault.ok =>
          match tablesOf c fw.2 with
          | Except.error rc => ⟨rc, some { st with rc := rc }, some (c.setErr rc), fw.2⟩
          | Except.ok (f, ts) =>
              match st.sql with
              | Sql.createKeys =>
                  ⟨SQLITE_DONE, some { st with rc := SQLITE_DONE },
                    some (c.setErr SQLITE_DONE), writeTables c f (createKeysTable ts) fw.2⟩
              | Sql.upsert =>
                  match ts.lookup KEYS, st.key, st.value with
                  | some rows, some k, some v =>
                      ⟨SQLITE_DONE, some { st with rc := SQLITE_DONE },
                        some (c.setErr SQLITE_DONE),
                        writeTables c f (setKeysRows ts (upsertRow rows k v)) fw.2⟩
                  | none, _, _ =>
                      ⟨SQLITE_ERROR, some { st with rc := SQLITE_ERROR },
                        some (c.setErr SQLITE_ERROR), fw.2⟩
                  | _, _, _ =>
                      ⟨SQLITE_MISUSE, some { st with rc := SQLITE_MISUSE },
                        some (c.setErr SQLITE_MISUSE), fw.2⟩
              | Sql.select =>
                  match ts.lookup KEYS, st.key with
                  | some rows, some k =>
                      match rows.lookup k with
                      | some v =>
                          ⟨SQLITE_ROW, some { st with row := some v, rc := SQLITE_ROW },
                            some (c.setErr SQLITE_ROW), fw.2⟩
                      | none =>
                          ⟨SQLITE_DONE, some { st with row := none, rc := SQLITE_DONE },
                            some (c.setErr SQLITE_DONE), fw.2⟩
                  | none, _ =>
                      ⟨SQLITE_ERROR, some { st with rc := SQLITE_ERROR },
                        some (c.setErr SQLITE_ERROR), fw.2⟩
                  | _, none =>
                      ⟨SQLITE_MISUSE, some { st with rc := SQLITE_MISUSE },
                        some (c.setErr SQLITE_MISUSE), fw.2⟩
      | _ => ⟨SQLITE_IOERR, some { st with rc := SQLITE_IOERR },
               some (c.setErr SQLITE_IOERR), fw.2⟩
  | _, _ => ⟨SQLITE_MISUSE, stmt, db, w0⟩

/-- Model of `sqlite3_column_text(stmt, 0)`: column 0 of the current row, or
null when there is none. -/
def sqlite3_column_text (stmt : Option Stmt) : Option String :=
  match stmt with
  | some st => st.row
  | none => none

/-- Model of `sqlite3_finalize(stmt)`: the statement is destroyed and removed
from its connection; the code of its most recent evaluation is reported when
that evaluation failed.  A null statement is a harmless no-op. -/
def sqlite3_finalize (db : Option Conn) (stmt : Option Stmt) (w : World) : Eng Unit :=
  let w0 := w.log Call.sqlite3_finalize
  match db, stmt with
  | some c, some st =>
      let rc := if st.rc = SQLITE_OK ∨ st.rc = SQLITE_ROW ∨ st.rc = SQLITE_DONE
                then SQLITE_OK else st.rc
      ⟨rc, (), some { c with stmts := c.stmts - 1, errcode := rc }, w0⟩
  | _, _ => ⟨SQLITE_OK, (), db, w0⟩

/-! ## The wrapper: `CDatabase` -/

deriving instance DecidableEq for Except

/-- The `CDatabase` object: its only member is the connection handle. -/
structure CDatabase where
  m_db : Option Conn
  deriving DecidableEq, Repr

/-- Outcome of a method call: the value returned or the message of the
exception thrown, the object afterwards, the world afterwards. -/
structure Ret (α : Type) where
  result : Except String α
  self : CDatabase
  world : World

/-- The constructor: `m_db(nullptr)`. -/
def CDatabase.ctor : CDatabase := ⟨none⟩

/-- Embedding of `CDatabase::close`. -/
def CDatabase.close (self : CDatabase) (w : World) : CDatabase × World :=
  match self.m_db with
  | some c => (⟨none⟩, (sqlite3_close (some c) w).2)
  | none => (self, w)

/-- The `try` block of `CDatabase::createDatabase`. -/
def CDatabase.createDatabase_try (_ : CDatabase) (path : String) (w : World) : Ret Unit :=
  let r1 := sqlite3_open path w
  let w1 := (chmod path 0o666 r1.world).2
  if r1.rc ≠ SQLITE_OK then
    ⟨Except.error (sqlite3_errmsg r1.db), ⟨r1.db⟩, w1⟩
  else
    let r2 := sqlite3_exec r1.db Sql.createKeys w1
    if r2.rc ≠ SQLITE_OK then
      ⟨Except.error r2.out, ⟨r2.db⟩, r2.world⟩
    else
      ⟨Except.ok (), ⟨r2.db⟩, r2.world⟩

/-- Embedding of `CDatabase::createDatabase`: the `try` block, and on an
exception the handler (close, unlink, rethrow). -/
def CDatabase.createDatabase (self : CDatabase) (path : String) (w : World) : Ret Unit :=
  let r := self.createDatabase_try path w
  match r.result with
  | Except.ok _ => r
  | Except.error e =>
      let cw := r.self.close r.world
      ⟨Except.error e, cw.1, (unlink path cw.2).2⟩

/-- Embedding of `CDatabase::open`. -/
def CDatabase.open (self : CDatabase) (path : String) (w : World) : Ret Unit :=
  let cw := self.close w
  let a := access path cw.2
  if a.1 ≠ 0 then
    cw.1.createDatabase path a.2
  else
    let r := sqlite3_open path a.2
    if r.rc ≠ SQLITE_OK then
      ⟨Except.error (sqlite3_errmsg r.db), ⟨r.db⟩, r.world⟩
    else
      ⟨Except.ok (), ⟨r.db⟩, r.world⟩

/-- Embedding of `CDatabase::setValue`. -/
def CDatabase.setValue (self : CDatabase) (key value : String) (w : World) : Ret Unit :=
  let r1 := sqlite3_prepare_v2 self.m_db Sql.upsert w
  if r1.rc ≠ SQLITE_OK then
    ⟨Except.error (sqlite3_errmsg r1.db), ⟨r1.db⟩, r1.world⟩
  else
    let r2 := sqlite3_bind_text r1.db r1.out 1 key r1.world
    if r2.rc ≠ SQLITE_OK then
      ⟨Except.error (sqlite3_errmsg r2.db), ⟨r2.db⟩, r2.world⟩
    else
      let r3 := sqlite3_bind_text r2.db r2.out 2 value r2.world
      if r3.rc ≠ SQLITE_OK then
        ⟨Except.error (sqlite3_errmsg r3.db), ⟨r3.db⟩, r3.world⟩
      else
        let r4 := sqlite3_step r3.db r3.out r3.world
        if r4.rc ≠ SQLITE_DONE then
          ⟨Except.error (sqlite3_errmsg r4.db), ⟨r4.db⟩, r4.world⟩
        else
          let r5 := sqlite3_finalize r4.db r4.out r4.world
          if r5.rc ≠ SQLITE_OK then
            ⟨Except.error (sqlite3_errmsg r5.db), ⟨r5.db⟩, r5.world⟩
          else
            ⟨Except.ok (), ⟨r5.db⟩, r5.world⟩

/-- Embedding of `CDatabase::getValue`.  Building a `std::string` from a null
column pointer has no defined result; the engine model never yields one after
`SQLITE_ROW`, and that branch is given an exception here. -/
def CDatabase.getValue (self : CDatabase) (key : String) (w : World) : Ret String :=
  let r1 := sqlite3_prepare_v2 self.m_db Sql.select w
  if r1.rc ≠ SQLITE_OK then
    ⟨Except.error (sqlite3_errmsg r1.db), ⟨r1.db⟩, r1.world⟩
  else
    let r2 := sqlite3_bind_text r1.db r1.out 1 key r1.world
    if r2.rc ≠ SQLITE_OK then
      ⟨Except.error (sqlite3_errmsg r2.db), ⟨r2.db⟩, r2.world⟩
    else
      let r3 := sqlite3_step r2.db r2.out r2.world
      if r3.rc ≠ SQLITE_ROW then
        ⟨Except.error (sqlite3_errmsg r3.db), ⟨r3.db⟩, r3.world⟩
      else
        match sqlite3_column_text r3.out with
        | none => ⟨Except.error "basic_string: construction from null", ⟨r3.db⟩, r3.world⟩
        | some value =>
            let r4 := sqlite3_finalize r3.db r3.out r3.world
            if r4.rc ≠ SQLITE_OK then
              ⟨Except.error (sqlite3_errmsg r4.db), ⟨r4.db⟩, r4.world⟩
            else
              ⟨Except.ok value, ⟨r4.db⟩, r4.world⟩

/-! ## The JNI boundary -/

/-- A `jstring` argument, seen through `GetStringUTFChars`: the characters it
yields, or `none` when the call yields a null pointer. -/
abbrev jstring := Option String

/-- The `CJNIString` object: `m_str` as obtained by the constructor. -/
structure CJNIString where
  m_str : Option String

/-- The constructor: `m_str = env->GetStringUTFChars(jstr, nullptr)`. -/
def CJNIString.ctor (jstr : jstring) : CJNIString := ⟨jstr⟩

/-- Embedding of `CJNIString::c_str`. -/
def CJNIString.c_str (self : CJNIString) : Except String String :=
  match self.m_str with
  | none => Except.error "String is null"
  | some s => Except.ok s

/-- Embedding of the JNI entry point `sstCreate` on the global `g_database`.
Logging is enabled in the source, so both `c_str()` arguments of the two
`LOG_DEBUG` lines are evaluated before the path is built.  An exception ends
as a pending Java exception carrying the same message. -/
def Java_com_example_shared_1storage_MainActivity_sstCreate
    (localDataPath externalDataPath : jstring) (g_database : CDatabase) (w : World) :
    Ret Unit :=
  let localDataPathStr := CJNIString.ctor localDataPath
  let externalDataPathStr := CJNIString.ctor externalDataPath
  match localDataPathStr.c_str with
  | Except.error e => ⟨Except.error e, g_database, w⟩
  | Except.ok _ =>
      match externalDataPathStr.c_str with
      | Except.error e => ⟨Except.error e, g_database, w⟩
      | Except.ok _ =>
          match externalDataPathStr.c_str with
          | Except.error e => ⟨Except.error e, g_database, w⟩
          | Except.ok dbPath => g_database.open (dbPath ++ "/sst_app.db") w

/-! ## Observations used in the statements -/

/-- The rows of `KEYS` in the file the store is open on; `none` when the store
is closed, its connection is unusable, or the file holds no such table. -/
def CDatabase.rows (self : CDatabase) (w : World) : Option Rows :=
  match self.m_db with
  | none => none
  | some c =>
      match tablesOf c w with
      | Except.ok (_, ts) => ts.lookup KEYS
      | Except.error _ => none

/-- Number of prepared and not yet finalized statements on the connection. -/
def CDatabase.openStmts (self : CDatabase) : Nat :=
  match self.m_db with
  | none => 0
  | some c => c.stmts

/-- A fresh world in which every path names a file of its own (no aliases),
holding the given files and script. -/
def World.init (fs : FS) (faults : List Fault) : World :=
  ⟨fs, fun path => path, faults, [], [], []⟩

/-- The world in which `name` has become another path to the file `target`
names (a link, or a spelling such as `/d/./a.db` of `/d/a.db`). -/
def World.withAlias (w : World) (name target : String) : World :=
  { w with resolve := fun path => if path = name then w.resolve target else w.resolve path }

/-- Outcomes of the four calls of the re-open scenario. -/
structure ReopenRun where
  openA : Ret Unit
  set : Ret Unit
  openB : Ret Unit
  get : Ret String

/-- The re-open scenario: `open(pathA)`, `setValue("x", "1")`, `open(pathB)`,
`getValue("x")`, run in sequence on the same store. -/
def reopenRun (pathA pathB : String) (s : CDatabase) (w : World) : ReopenRun :=
  let a := s.open pathA w
  let b := a.self.setValue "x" "1" a.world
  let c := b.self.open pathB b.world
  let d := c.self.getValue "x" c.world
  ⟨a, b, c, d⟩

/-! ## Concrete worlds used to evaluate the code -/

/-- A file system with no file at all. -/
def emptyFS : FS := fun _ => none

/-- A file system whose only file is a database at `path` with the given
permission bits and `KEYS` rows. -/
def singleDb (path : String) (mode : Nat) (rows : Rows) : FS :=
  fun q => if q = path then some ⟨mode, Content.database [(KEYS, rows)]⟩ else none

/-- A store open on `path` by a usable connection without pending statements. -/
def openStore (path : String) : CDatabase := ⟨some ⟨path, true, 0, SQLITE_OK⟩⟩

end SharedStorage

namespace SharedStorage

/-! ## Basic facts about the world -/

@[simp] theorem log_fs (w : World) (c : Call) : (w.log c).fs = w.fs := rfl
@[simp] theorem log_faults (w : World) (c : Call) : (w.log c).faults = w.faults := rfl
@[simp] theorem log_calls (w : World) (c : Call) : (w.log c).calls = w.calls ++ [c] := rfl
@[simp] theorem log_leaked (w : World) (c : Call) : (w.log c).leaked = w.leaked := rfl
@[simp] theorem log_files (w : World) (c : Call) : (w.log c).files = w.files := rfl
@[simp] theorem log_resolve (w : World) (c : Call) : (w.log c).resolve = w.resolve := rfl
@[simp] theorem log_undeleted (w : World) (c : Call) : (w.log c).undeleted = w.undeleted := rfl

@[simp] theorem nextFault_files (w : World) : w.nextFault.2.files = w.files := by
  unfold World.nextFault; split <;> rfl

@[simp] theorem nextFault_resolve (w : World) : w.nextFault.2.resolve = w.resolve := by
  unfold World.nextFault; split <;> rfl

@[simp] theorem nextFault_undeleted (w : World) : w.nextFault.2.undeleted = w.undeleted := by
  unfold World.nextFault; split <;> rfl

theorem fs_eq_of (w1 w2 : World) (hf : w1.files = w2.files) (hr : w1.resolve = w2.resolve) :
    w1.fs = w2.fs := by
  unfold World.fs; rw [hf, hr]

theorem fs_of_write (w1 w : World) (p : String) (f : File)
    (hf : w1.files = w.files.write (w.resolve p) f) (hr : w1.resolve = w.resolve) :
    w1.fs p = some f ∧ ∀ q, w.resolve q ≠ w.resolve p → w1.fs q = w.fs q := by
  unfold World.fs
  rw [hf, hr]
  exact ⟨by simp [Files.write], fun q hq => by simp [Files.write, hq]⟩

@[simp] theorem nextFault_fs (w : World) : w.nextFault.2.fs = w.fs := by
  unfold World.nextFault; split <;> rfl

@[simp] theorem nextFault_calls (w : World) : w.nextFault.2.calls = w.calls := by
  unfold World.nextFault; split <;> rfl

@[simp] theorem nextFault_leaked (w : World) : w.nextFault.2.leaked = w.leaked := by
  unfold World.nextFault; split <;> rfl

@[simp] theorem nextFault_log (w : World) (c : Call) :
    (w.log c).nextFault = (w.nextFault.1, w.nextFault.2.log c) := by
  unfold World.nextFault World.log; cases h : w.faults <;> simp [h]

theorem faultFree_next (w : World) (h : w.faultFree) :
    w.nextFault.1 = Fault.ok ∧ w.nextFault.2.faultFree := by
  unfold World.faultFree at *
  unfold World.nextFault
  cases hf : w.faults with
  | nil => simp [hf]
  | cons f rest =>
      rw [hf] at h
      exact ⟨h f (List.mem_cons_self _ _), fun g hg => h g (List.mem_cons_of_mem _ hg)⟩

@[simp] theorem faultFree_log (w : World) (c : Call) : (w.log c).faultFree ↔ w.faultFree :=
  Iff.rfl

@[simp] theorem write_same (files : Files) (i : FileId) (f : File) :
    files.write i f i = some f := by
  simp [Files.write]

theorem write_other (files : Files) (i j : FileId) (f : File) (h : j ≠ i) :
    files.write i f j = files j := by
  simp [Files.write, h]

@[simp] theorem remove_same (files : Files) (i : FileId) : files.remove i i = none := by
  simp [Files.remove]

/-! ## close -/

@[simp] theorem close_m_db (s : CDatabase) (w : World) : (s.close w).1.m_db = none := by
  unfold CDatabase.close; split <;> simp_all

@[simp] theorem sqlite3_close_files (db : Option Conn) (w : World) :
    (sqlite3_close db w).2.files = w.files := by
  unfold sqlite3_close
  cases db with
  | none => rfl
  | some c => by_cases h : c.stmts = 0 <;> simp [h]

@[simp] theorem sqlite3_close_resolve (db : Option Conn) (w : World) :
    (sqlite3_close db w).2.resolve = w.resolve := by
  unfold sqlite3_close
  cases db with
  | none => rfl
  | some c => by_cases h : c.stmts = 0 <;> simp [h]

@[simp] theorem sqlite3_close_faults (db : Option Conn) (w : World) :
    (sqlite3_close db w).2.faults = w.faults := by
  unfold sqlite3_close
  cases db with
  | none => rfl
  | some c => by_cases h : c.stmts = 0 <;> simp [h]

@[simp] theorem close_files (s : CDatabase) (w : World) : (s.close w).2.files = w.files := by
  unfold CDatabase.close; split <;> simp

@[simp] theorem close_resolve (s : CDatabase) (w : World) :
    (s.close w).2.resolve = w.resolve := by
  unfold CDatabase.close; split <;> simp

@[simp] theorem close_fs (s : CDatabase) (w : World) : (s.close w).2.fs = w.fs :=
  fs_eq_of _ _ (close_files s w) (close_resolve s w)

@[simp] theorem close_faults (s : CDatabase) (w : World) : (s.close w).2.faults = w.faults := by
  unfold CDatabase.close; split <;> simp

/-- C6: `close` has no failing outcome (it returns the object and the world,
never an exception); on a store holding no connection it changes neither the
object nor the world; after it the store holds no connection; and closing
twice leaves exactly the state a single close leaves. -/
theorem close_idempotent (s : CDatabase) (w : World) :
    (s.close w).1.m_db = none ∧
    CDatabase.close ⟨none⟩ w = (⟨none⟩, w) ∧
    (s.close w).1.close (s.close w).2 = s.close w := by
  refine ⟨close_m_db s w, rfl, ?_⟩
  have h := close_m_db s w
  generalize s.close w = r at h
  obtain ⟨⟨m⟩, w1⟩ := r
  simp at h
  subst h
  rfl

/-! ## open and createDatabase -/

theorem unlink_removes (path : String) (w : World) :
    (unlink path w).2.fs path = none ∨ path ∈ (unlink path w).2.undeleted := by
  unfold unlink
  simp only [nextFault_log]
  cases hf : w.fs path with
  | none => left; simpa [World.fs] using hf
  | some f =>
      cases hfault : w.nextFault.1 with
      | ok => left; simp [World.fs]
      | err => right; simp
      | errCreated => right; simp
      | nomem => right; simp

theorem sqlite3_open_rc (path : String) (w : World) :
    (sqlite3_open path w).rc = SQLITE_OK ↔ w.nextFault.1 = Fault.ok := by
  unfold sqlite3_open
  simp only [nextFault_log]
  cases w.nextFault.1 <;> simp

theorem sqlite3_open_of_ok (path : String) (w : World) (h : w.nextFault.1 = Fault.ok) :
    sqlite3_open path w =
      ⟨SQLITE_OK, (), some ⟨path, true, 0, SQLITE_OK⟩,
        ensureFile path (w.nextFault.2.log (Call.sqlite3_open path))⟩ := by
  unfold sqlite3_open
  simp only [nextFault_log, h]

theorem open_of_missing (s : CDatabase) (path : String) (w : World)
    (hnofile : w.fs path = none) :
    s.open path w = (s.close w).1.createDatabase path ((s.close w).2.log (Call.access path)) := by
  unfold CDatabase.open
  simp only [access, close_fs, hnofile, Option.isSome_none]
  simp

theorem createDatabase_error (s : CDatabase) (path : String) (w : World) (e : String)
    (h : (s.createDatabase path w).result = Except.error e) :
    ((s.createDatabase path w).world.fs path = none ∨
      path ∈ (s.createDatabase path w).world.undeleted) ∧
    (s.createDatabase path w).self.m_db = none := by
  unfold CDatabase.createDatabase at h ⊢
  generalize s.createDatabase_try path w = r at h ⊢
  obtain ⟨res, s1, w1⟩ := r
  cases res with
  | ok u => simp at h
  | error e1 => exact ⟨unlink_removes _ _, by simp⟩

theorem open_failure_closed_when_missing (s : CDatabase) (path : String) (w : World)
    (e : String) (hnofile : w.fs path = none)
    (hfail : (s.open path w).result = Except.error e) :
    (s.open path w).self.m_db = none := by
  rw [open_of_missing s path w hnofile] at hfail ⊢
  exact (createDatabase_error _ _ _ e hfail).2

/-- C3, as stated, fails: no file exists at the path, the engine open creates
it, the CREATE TABLE statement fails and the `unlink` of the handler fails as
well (its result is discarded by the source); `open` ends with an exception and
the file is still there. -/
theorem open_failure_file_remains :
    (World.init emptyFS [Fault.ok, Fault.err, Fault.err]).fs "/d/sst_app.db" = none ∧
    (CDatabase.ctor.open "/d/sst_app.db"
      (World.init emptyFS [Fault.ok, Fault.err, Fault.err])).result
      = Except.error "disk I/O error" ∧
    (CDatabase.ctor.open "/d/sst_app.db"
      (World.init emptyFS [Fault.ok, Fault.err, Fault.err])).world.fs "/d/sst_app.db"
      = some ⟨0o666, Content.database []⟩ := by
  refine ⟨by decide, by decide, by decide⟩

/-- C3, amended: when no file exists at `path`, `open(path)` ends with an
exception (whatever engine failure caused it, at the engine open or at the
CREATE TABLE statement) and the `unlink(path)` of the handler did not fail, no
file exists at `path` afterwards. -/
theorem open_failure_leaves_no_file (s : CDatabase) (path : String) (w : World) (e : String)
    (hnofile : w.fs path = none)
    (hfail : (s.open path w).result = Except.error e)
    (hunlink : path ∉ (s.open path w).world.undeleted) :
    (s.open path w).world.fs path = none := by
  rw [open_of_missing s path w hnofile] at hfail hunlink ⊢
  rcases (createDatabase_error _ _ _ e hfail).1 with h | h
  · exact h
  · exact absurd h hunlink

theorem write_write (files : Files) (i : FileId) (f g : File) :
    (files.write i f).write i g = files.write i g := by
  funext j
  by_cases h : j = i <;> simp [Files.write, h]

theorem chmod_of_some (path : String) (mode : Nat) (w : World) (f : File)
    (h : w.fs path = some f) :
    (chmod path mode w).2.files = w.files.write (w.resolve path) { f with mode := mode } ∧
    (chmod path mode w).2.resolve = w.resolve := by
  unfold chmod; simp [h]

theorem ensureFile_of_none (path : String) (w : World) (h : w.fs path = none) :
    (ensureFile path w).files = w.files.write (w.resolve path) newFile ∧
    (ensureFile path w).resolve = w.resolve := by
  unfold ensureFile; simp [h]

theorem ensureFile_of_some (path : String) (w : World) (h : (w.fs path).isSome) :
    ensureFile path w = w := by
  unfold ensureFile
  cases hf : w.fs path with
  | none => simp [hf] at h
  | some f => rfl

theorem tablesOf_ok (c : Conn) (w : World) (f : File) (ts : List (String × Rows))
    (hu : c.usable = true) (hf : w.fs c.path = some f) (hc : f.content = Content.database ts) :
    tablesOf c w = Except.ok (f, ts) := by
  unfold tablesOf; simp [hu, hf, hc]

theorem sqlite3_exec_createKeys (c : Conn) (w : World) (f : File) (ts : List (String × Rows))
    (hu : c.usable = true) (hf : w.fs c.path = some f) (hc : f.content = Content.database ts)
    (hrc : (sqlite3_exec (some c) Sql.createKeys w).rc = SQLITE_OK) :
    (sqlite3_exec (some c) Sql.createKeys w).world.files =
        w.files.write (w.resolve c.path)
          { f with content := Content.database (createKeysTable ts) } ∧
    (sqlite3_exec (some c) Sql.createKeys w).world.resolve = w.resolve ∧
    (sqlite3_exec (some c) Sql.createKeys w).db = some (c.setErr SQLITE_OK) := by
  unfold sqlite3_exec at hrc ⊢
  simp only [nextFault_log] at hrc ⊢
  have ht : tablesOf c (w.nextFault.2.log (Call.sqlite3_exec Sql.createKeys)) = Except.ok (f, ts) :=
    tablesOf_ok c _ f ts hu (by simpa using hf) hc
  cases hfault : w.nextFault.1 <;> simp [hfault, ht, writeTables] at hrc ⊢

theorem createDatabase_ok (s : CDatabase) (path : String) (w : World)
    (hnofile : w.fs path = none)
    (hok : (s.createDatabase path w).result = Except.ok ()) :
    (s.createDatabase path w).world.files =
      w.files.write (w.resolve path) ⟨0o666, Content.database [(KEYS, [])]⟩ ∧
    (s.createDatabase path w).world.resolve = w.resolve ∧
    (s.createDatabase path w).self.m_db = some ⟨path, true, 0, SQLITE_OK⟩ := by
  unfold CDatabase.createDatabase CDatabase.createDatabase_try at hok ⊢
  by_cases h1 : w.nextFault.1 = Fault.ok
  · rw [sqlite3_open_of_ok path w h1] at hok ⊢
    simp only [ne_eq, not_true_eq_false, if_false] at hok ⊢
    obtain ⟨hF1, hR1⟩ := ensureFile_of_none path (w.nextFault.2.log (Call.sqlite3_open path))
      (by simpa using hnofile)
    simp only [log_files, nextFault_files, log_resolve, nextFault_resolve] at hF1 hR1
    generalize ensureFile path (w.nextFault.2.log (Call.sqlite3_open path)) = W1
      at hok hF1 hR1 ⊢
    have hfs1 : W1.fs path = some newFile := (fs_of_write W1 w path newFile hF1 hR1).1
    obtain ⟨hF2, hR2⟩ := chmod_of_some path 0o666 W1 newFile hfs1
    rw [hF1, hR1, write_write] at hF2
    rw [hR1] at hR2
    generalize (chmod path 0o666 W1).2 = W2 at hok hF2 hR2 ⊢
    have hfs2 : W2.fs path = some { newFile with mode := 0o666 } :=
      (fs_of_write W2 w path _ hF2 hR2).1
    by_cases hrc : (sqlite3_exec (some ⟨path, true, 0, SQLITE_OK⟩) Sql.createKeys W2).rc
        = SQLITE_OK
    · obtain ⟨hF3, hR3, hdb⟩ := sqlite3_exec_createKeys ⟨path, true, 0, SQLITE_OK⟩ W2 _ []
        rfl hfs2 rfl hrc
      simp only [hrc, ne_eq, not_true_eq_false, if_false, hF3, hR3, hdb]
      rw [hF2, hR2, write_write]
      exact ⟨by simp [createKeysTable], rfl, rfl⟩
    · simp [hrc] at hok
  · have hrc : (sqlite3_open path w).rc ≠ SQLITE_OK := fun h => h1 ((sqlite3_open_rc path w).1 h)
    simp [hrc] at hok

theorem open_missing_ok (s : CDatabase) (path : String) (w : World)
    (hnofile : w.fs path = none)
    (hok : (s.open path w).result = Except.ok ()) :
    (s.open path w).world.fs path = some ⟨0o666, Content.database [(KEYS, [])]⟩ ∧
    (∀ q, w.resolve q ≠ w.resolve path → (s.open path w).world.fs q = w.fs q) ∧
    (s.open path w).self.m_db = some ⟨path, true, 0, SQLITE_OK⟩ ∧
    (s.open path w).world.resolve = w.resolve := by
  rw [open_of_missing s path w hnofile] at hok ⊢
  obtain ⟨hF, hR, hm⟩ := createDatabase_ok (s.close w).1 path
    ((s.close w).2.log (Call.access path)) (by simpa using hnofile) hok
  simp only [log_files, close_files, log_resolve, close_resolve] at hF hR
  obtain ⟨h1, h2⟩ := fs_of_write _ w path _ hF hR
  exact ⟨h1, h2, hm, hR⟩

theorem tablesOf_congr (c : Conn) (w1 w2 : World) (h : w1.fs = w2.fs) :
    tablesOf c w1 = tablesOf c w2 := by
  unfold tablesOf; rw [h]

@[simp] theorem tablesOf_next_log (c : Conn) (w : World) (call : Call) :
    tablesOf c (w.nextFault.2.log call) = tablesOf c w :=
  tablesOf_congr _ _ _ (by simp)

theorem prepare_eq (c : Conn) (sql : Sql) (w : World) (f : File) (ts : List (String × Rows))
    (rows : Rows) (hfault : w.nextFault.1 = Fault.ok)
    (ht : tablesOf c w = Except.ok (f, ts)) (hl : ts.lookup KEYS = some rows) :
    sqlite3_prepare_v2 (some c) sql w =
      ⟨SQLITE_OK, some ⟨sql, none, none, none, SQLITE_OK⟩,
        some { c with stmts := c.stmts + 1, errcode := SQLITE_OK },
        w.nextFault.2.log (Call.sqlite3_prepare_v2 sql)⟩ := by
  unfold sqlite3_prepare_v2
  simp [hfault, ht, hl]

theorem bind_key_eq (c : Conn) (st : Stmt) (text : String) (w : World)
    (hfault : w.nextFault.1 = Fault.ok) (hp : 1 ≤ st.sql.params) :
    sqlite3_bind_text (some c) (some st) 1 text w =
      ⟨SQLITE_OK, some { st with key := some text }, some (c.setErr SQLITE_OK),
        w.nextFault.2.log (Call.sqlite3_bind_text 1 text)⟩ := by
  unfold sqlite3_bind_text
  simp [hfault, hp]

theorem bind_value_eq (c : Conn) (st : Stmt) (text : String) (w : World)
    (hfault : w.nextFault.1 = Fault.ok) (hp : 2 ≤ st.sql.params) :
    sqlite3_bind_text (some c) (some st) 2 text w =
      ⟨SQLITE_OK, some { st with value := some text }, some (c.setErr SQLITE_OK),
        w.nextFault.2.log (Call.sqlite3_bind_text 2 text)⟩ := by
  unfold sqlite3_bind_text
  simp [hfault, hp]

theorem step_select_eq (c : Conn) (st : Stmt) (k : String) (w : World) (f : File)
    (ts : List (String × Rows)) (rows : Rows) (hfault : w.nextFault.1 = Fault.ok)
    (ht : tablesOf c w = Except.ok (f, ts)) (hl : ts.lookup KEYS = some rows)
    (hsql : st.sql = Sql.select) (hk : st.key = some k) :
    sqlite3_step (some c) (some st) w =
      match rows.lookup k with
      | some v => ⟨SQLITE_ROW, some { st with row := some v, rc := SQLITE_ROW },
                    some (c.setErr SQLITE_ROW), w.nextFault.2.log Call.sqlite3_step⟩
      | none => ⟨SQLITE_DONE, some { st with row := none, rc := SQLITE_DONE },
                  some (c.setErr SQLITE_DONE), w.nextFault.2.log Call.sqlite3_step⟩ := by
  unfold sqlite3_step
  simp only [nextFault_log, hfault, tablesOf_next_log, ht, hsql, hl, hk]

theorem step_upsert_eq (c : Conn) (st : Stmt) (k v : String) (w : World) (f : File)
    (ts : List (String × Rows)) (rows : Rows) (hfault : w.nextFault.1 = Fault.ok)
    (ht : tablesOf c w = Except.ok (f, ts)) (hl : ts.lookup KEYS = some rows)
    (hsql : st.sql = Sql.upsert) (hk : st.key = some k) (hv : st.value = some v) :
    sqlite3_step (some c) (some st) w =
      ⟨SQLITE_DONE, some { st with rc := SQLITE_DONE }, some (c.setErr SQLITE_DONE),
        writeTables c f (setKeysRows ts (upsertRow rows k v))
          (w.nextFault.2.log Call.sqlite3_step)⟩ := by
  unfold sqlite3_step
  simp only [nextFault_log, hfault, tablesOf_next_log, ht, hsql, hl, hk, hv]

/-! ## getValue and setValue on a fault-free engine -/

theorem getValue_faultFree (s : CDatabase) (c : Conn) (k : String) (w : World) (f : File)
    (ts : List (String × Rows)) (rows : Rows)
    (hm : s.m_db = some c) (ht : tablesOf c w = Except.ok (f, ts))
    (hl : ts.lookup KEYS = some rows) (hfree : w.faultFree) :
    (s.getValue k w).result =
      (match rows.lookup k with
       | some v => Except.ok v
       | none => Except.error (sqlite3_errstr SQLITE_DONE)) ∧
    (s.getValue k w).world.fs = w.fs ∧ (s.getValue k w).world.faultFree ∧
    (s.getValue k w).self.m_db =
      (match rows.lookup k with
       | some _ => some { c with errcode := SQLITE_OK }
       | none => some { c with stmts := c.stmts + 1, errcode := SQLITE_DONE }) := by
  unfold CDatabase.getValue
  obtain ⟨hf1, hfree1⟩ := faultFree_next w hfree
  rw [hm, prepare_eq c Sql.select w f ts rows hf1 ht hl]
  simp only [ne_eq, not_true_eq_false, if_false]
  have ht1 : tablesOf c (w.nextFault.2.log (Call.sqlite3_prepare_v2 Sql.select))
      = Except.ok (f, ts) := by simpa using ht
  have hfs1 : (w.nextFault.2.log (Call.sqlite3_prepare_v2 Sql.select)).fs = w.fs := by simp
  have hfree1 : (w.nextFault.2.log (Call.sqlite3_prepare_v2 Sql.select)).faultFree := hfree1
  generalize w.nextFault.2.log (Call.sqlite3_prepare_v2 Sql.select) = w1 at ht1 hfs1 hfree1 ⊢
  obtain ⟨hf2, hfree2⟩ := faultFree_next w1 hfree1
  rw [bind_key_eq _ _ k w1 hf2 (by decide)]
  simp only [ne_eq, not_true_eq_false, if_false]
  have ht2 : tablesOf c (w1.nextFault.2.log (Call.sqlite3_bind_text 1 k))
      = Except.ok (f, ts) := by simpa using ht1
  have hfs2 : (w1.nextFault.2.log (Call.sqlite3_bind_text 1 k)).fs = w.fs := by simp [hfs1]
  have hfree2 : (w1.nextFault.2.log (Call.sqlite3_bind_text 1 k)).faultFree := hfree2
  generalize w1.nextFault.2.log (Call.sqlite3_bind_text 1 k) = w2 at ht2 hfs2 hfree2 ⊢
  obtain ⟨hf3, hfree3⟩ := faultFree_next w2 hfree2
  have ht2c : tablesOf (Conn.setErr { c with stmts := c.stmts + 1, errcode := SQLITE_OK }
      SQLITE_OK) w2 = Except.ok (f, ts) := by
    simpa [tablesOf, Conn.setErr] using ht2
  rw [step_select_eq _ _ k w2 f ts rows hf3 ht2c hl rfl rfl]
  have hfs3 : (w2.nextFault.2.log Call.sqlite3_step).fs = w.fs := by simp [hfs2]
  have hfree3 : (w2.nextFault.2.log Call.sqlite3_step).faultFree := hfree3
  generalize w2.nextFault.2.log Call.sqlite3_step = w3 at hfs3 hfree3 ⊢
  cases hlk : rows.lookup k with
  | none => simp [hfs3, hfree3, Conn.setErr, sqlite3_errmsg]
  | some v =>
      simp [hfs3, sqlite3_column_text, sqlite3_finalize, Conn.setErr]
      exact hfree3

theorem setValue_faultFree (s : CDatabase) (c : Conn) (k v : String) (w : World) (f : File)
    (ts : List (String × Rows)) (rows : Rows)
    (hm : s.m_db = some c) (ht : tablesOf c w = Except.ok (f, ts))
    (hl : ts.lookup KEYS = some rows) (hfree : w.faultFree) :
    (s.setValue k v w).result = Except.ok () ∧
    (s.setValue k v w).world.files =
      w.files.write (w.resolve c.path)
        { f with content := Content.database (setKeysRows ts (upsertRow rows k v)) } ∧
    (s.setValue k v w).world.resolve = w.resolve ∧
    (s.setValue k v w).world.faultFree ∧
    (s.setValue k v w).self.m_db = some { c with errcode := SQLITE_OK } := by
  unfold CDatabase.setValue
  obtain ⟨hf1, hfree1⟩ := faultFree_next w hfree
  rw [hm, prepare_eq c Sql.upsert w f ts rows hf1 ht hl]
  simp only [ne_eq, not_true_eq_false, if_false]
  have ht1 : tablesOf c (w.nextFault.2.log (Call.sqlite3_prepare_v2 Sql.upsert))
      = Except.ok (f, ts) := by simpa using ht
  have hfs1 : (w.nextFault.2.log (Call.sqlite3_prepare_v2 Sql.upsert)).files = w.files := by
    simp
  have hrs1 : (w.nextFault.2.log (Call.sqlite3_prepare_v2 Sql.upsert)).resolve = w.resolve := by
    simp
  have hfree1 : (w.nextFault.2.log (Call.sqlite3_prepare_v2 Sql.upsert)).faultFree := hfree1
  generalize w.nextFault.2.log (Call.sqlite3_prepare_v2 Sql.upsert) = w1
    at ht1 hfs1 hrs1 hfree1 ⊢
  obtain ⟨hf2, hfree2⟩ := faultFree_next w1 hfree1
  rw [bind_key_eq _ _ k w1 hf2 (by decide)]
  simp only [ne_eq, not_true_eq_false, if_false]
  have ht2 : tablesOf c (w1.nextFault.2.log (Call.sqlite3_bind_text 1 k))
      = Except.ok (f, ts) := by simpa using ht1
  have hfs2 : (w1.nextFault.2.log (Call.sqlite3_bind_text 1 k)).files = w.files := by
    simp [hfs1]
  have hrs2 : (w1.nextFault.2.log (Call.sqlite3_bind_text 1 k)).resolve = w.resolve := by
    simp [hrs1]
  have hfree2 : (w1.nextFault.2.log (Call.sqlite3_bind_text 1 k)).faultFree := hfree2
  generalize w1.nextFault.2.log (Call.sqlite3_bind_text 1 k) = w2 at ht2 hfs2 hrs2 hfree2 ⊢
  obtain ⟨hf3, hfree3⟩ := faultFree_next w2 hfree2
  rw [bind_value_eq _ _ v w2 hf3 (by simp [Sql.params])]
  simp only [ne_eq, not_true_eq_false, if_false]
  have ht3 : tablesOf c (w2.nextFault.2.log (Call.sqlite3_bind_text 2 v))
      = Except.ok (f, ts) := by simpa using ht2
  have hfs3 : (w2.nextFault.2.log (Call.sqlite3_bind_text 2 v)).files = w.files := by
    simp [hfs2]
  have hrs3 : (w2.nextFault.2.log (Call.sqlite3_bind_text 2 v)).resolve = w.resolve := by
    simp [hrs2]
  have hfree3 : (w2.nextFault.2.log (Call.sqlite3_bind_text 2 v)).faultFree := hfree3
  generalize w2.nextFault.2.log (Call.sqlite3_bind_text 2 v) = w3 at ht3 hfs3 hrs3 hfree3 ⊢
  obtain ⟨hf4, hfree4⟩ := faultFree_next w3 hfree3
  have ht3c : tablesOf (Conn.setErr (Conn.setErr
      { c with stmts := c.stmts + 1, errcode := SQLITE_OK } SQLITE_OK) SQLITE_OK) w3
      = Except.ok (f, ts) := by
    simpa [tablesOf, Conn.setErr] using ht3
  rw [step_upsert_eq _ _ k v w3 f ts rows hf4 ht3c hl rfl rfl rfl]
  have hfs4 : (w3.nextFault.2.log Call.sqlite3_step).files = w.files := by simp [hfs3]
  have hrs4 : (w3.nextFault.2.log Call.sqlite3_step).resolve = w.resolve := by simp [hrs3]
  have hfree4 : (w3.nextFault.2.log Call.sqlite3_step).faultFree := hfree4
  generalize w3.nextFault.2.log Call.sqlite3_step = w4 at hfs4 hrs4 hfree4 ⊢
  simp [hfs4, hrs4, sqlite3_finalize, Conn.setErr, writeTables]
  exact hfree4

theorem lookup_setKeysRows (ts : List (String × Rows)) (rows r : Rows)
    (h : ts.lookup KEYS = some rows) : (setKeysRows ts r).lookup KEYS = some r := by
  unfold setKeysRows
  induction ts with
  | nil => simp at h
  | cons t rest ih =>
      obtain ⟨n, rs⟩ := t
      by_cases hn : n = KEYS
      · subst hn; simp [List.lookup]
      · have hb : (KEYS == n) = false := by
          simpa using fun h => hn h.symm
        rw [List.lookup_cons, hb] at h
        simp only [List.map_cons, hn, if_false]
        rw [List.lookup_cons, hb]
        exact ih h

theorem mem_of_lookup (rows : Rows) (k v : String) (h : rows.lookup k = some v) :
    (k, v) ∈ rows := by
  induction rows with
  | nil => simp at h
  | cons r rest ih =>
      obtain ⟨a, b⟩ := r
      by_cases ha : a = k
      · subst ha
        simp [List.lookup] at h
        subst h
        exact List.mem_cons_self _ _
      · have hb : (k == a) = false := by simpa using fun h => ha h.symm
        rw [List.lookup_cons, hb] at h
        exact List.mem_cons_of_mem _ (ih h)

theorem lookup_of_mem (rows : Rows) (k v : String) (hnodup : (rows.map Prod.fst).Nodup)
    (h : (k, v) ∈ rows) : rows.lookup k = some v := by
  induction rows with
  | nil => simp at h
  | cons r rest ih =>
      obtain ⟨a, b⟩ := r
      simp only [List.map_cons, List.nodup_cons] at hnodup
      rcases List.mem_cons.1 h with heq | hmem
      · cases heq
        simp [List.lookup]
      · have ha : a ≠ k := by
          intro hak
          subst hak
          exact hnodup.1 (List.mem_map.2 ⟨(a, v), hmem, rfl⟩)
        have hb : (k == a) = false := by simpa using fun h => ha h.symm
        rw [List.lookup_cons, hb]
        exact ih hnodup.2 hmem

theorem lookup_upsertRow (rows : Rows) (k v : String) :
    (upsertRow rows k v).lookup k = some v := by
  unfold upsertRow
  induction rows with
  | nil => simp [List.lookup]
  | cons r rest ih =>
      obtain ⟨a, b⟩ := r
      by_cases ha : a = k
      · simpa [List.filter_cons, ha] using ih
      · have hb : (k == a) = false := by simpa using fun h => ha h.symm
        simp only [List.filter_cons, ne_eq, ha, not_false_eq_true, decide_True, if_true,
          List.cons_append]
        rw [List.lookup_cons, hb]
        exact ih

theorem tablesOf_ok_iff (c : Conn) (w : World) (f : File) (ts : List (String × Rows)) :
    tablesOf c w = Except.ok (f, ts) ↔
      c.usable = true ∧ w.fs c.path = some f ∧ f.content = Content.database ts := by
  constructor
  · intro h
    unfold tablesOf at h
    cases hu : c.usable with
    | false => simp [hu] at h
    | true =>
        cases hf : w.fs c.path with
        | none => simp [hu, hf] at h
        | some g =>
            cases hc : g.content with
            | other => simp [hu, hf, hc] at h
            | database us =>
                simp only [hu, hf, hc, if_true, Except.ok.injEq, Prod.mk.injEq] at h
                obtain ⟨h1, h2⟩ := h
                subst h1; subst h2
                exact ⟨rfl, rfl, hc⟩
  · rintro ⟨hu, hf, hc⟩
    exact tablesOf_ok c w f ts hu hf hc

theorem rows_eq_some (s : CDatabase) (w : World) (rows : Rows) :
    s.rows w = some rows ↔
      ∃ c f ts, s.m_db = some c ∧ tablesOf c w = Except.ok (f, ts) ∧
        ts.lookup KEYS = some rows := by
  unfold CDatabase.rows
  constructor
  · intro h
    cases hm : s.m_db with
    | none => simp [hm] at h
    | some c =>
        cases ht : tablesOf c w with
        | error e => simp [hm, ht] at h
        | ok r =>
            obtain ⟨f, ts⟩ := r
            simp only [hm, ht] at h
            exact ⟨c, f, ts, rfl, ht, h⟩
  · rintro ⟨c, f, ts, hm, ht, hl⟩
    simp [hm, ht, hl]

theorem setValue_rows (s : CDatabase) (k v : String) (w : World) (rows : Rows)
    (hrows : s.rows w = some rows) (hfree : w.faultFree) :
    (s.setValue k v w).result = Except.ok () ∧
    (s.setValue k v w).self.rows (s.setValue k v w).world = some (upsertRow rows k v) ∧
    (s.setValue k v w).world.faultFree := by
  obtain ⟨c, f, ts, hm, ht, hl⟩ := (rows_eq_some s w rows).1 hrows
  obtain ⟨hres, hfs, hrs, hfree1, hdb⟩ :=
    setValue_faultFree s c k v w f ts rows hm ht hl hfree
  refine ⟨hres, ?_, hfree1⟩
  obtain ⟨hu, -, -⟩ := (tablesOf_ok_iff c w f ts).1 ht
  rw [rows_eq_some]
  refine ⟨_, { f with content := Content.database (setKeysRows ts (upsertRow rows k v)) },
    _, hdb, ?_, lookup_setKeysRows ts rows _ hl⟩
  rw [tablesOf_ok_iff]
  exact ⟨hu, (fs_of_write _ w c.path _ hfs hrs).1, rfl⟩

theorem getValue_rows (s : CDatabase) (k : String) (w : World) (rows : Rows)
    (hrows : s.rows w = some rows) (hfree : w.faultFree) :
    (s.getValue k w).result =
      (match rows.lookup k with
       | some v => Except.ok v
       | none => Except.error (sqlite3_errstr SQLITE_DONE)) := by
  obtain ⟨c, f, ts, hm, ht, hl⟩ := (rows_eq_some s w rows).1 hrows
  exact (getValue_faultFree s c k w f ts rows hm ht hl hfree).1

/-- C1: on a store open on a file that holds the `KEYS` table, with an engine
that meets no environmental failure, `setValue(k, v1)` and then
`setValue(k, v2)` both succeed and `getValue(k)` then returns exactly `v2`;
likewise `getValue(k)` right after the first `setValue(k, v1)` returns exactly
`v1`, whatever the table held for `k` before. -/
theorem setValue_setValue_getValue (s : CDatabase) (w : World) (k v1 v2 : String)
    (hopen : (s.rows w).isSome = true) (hfree : w.faultFree) :
    (s.setValue k v1 w).result = Except.ok () ∧
    ((s.setValue k v1 w).self.setValue k v2 (s.setValue k v1 w).world).result = Except.ok () ∧
    (((s.setValue k v1 w).self.setValue k v2 (s.setValue k v1 w).world).self.getValue k
      ((s.setValue k v1 w).self.setValue k v2 (s.setValue k v1 w).world).world).result
        = Except.ok v2 ∧
    ((s.setValue k v1 w).self.getValue k (s.setValue k v1 w).world).result = Except.ok v1 := by
  obtain ⟨rows, hrows⟩ := Option.isSome_iff_exists.1 hopen
  obtain ⟨h1, hr1, hf1⟩ := setValue_rows s k v1 w rows hrows hfree
  obtain ⟨h2, hr2, hf2⟩ := setValue_rows _ k v2 _ _ hr1 hf1
  refine ⟨h1, h2, ?_, ?_⟩
  · rw [getValue_rows _ k _ _ hr2 hf2, lookup_upsertRow]
  · rw [getValue_rows _ k _ _ hr1 hf1, lookup_upsertRow]

/-! ## getValue on any engine: what a returned value tells -/

theorem tablesOf_error_ne (c : Conn) (w : World) (rc : Nat)
    (h : tablesOf c w = Except.error rc) : rc ≠ SQLITE_OK := by
  unfold tablesOf at h
  split at h
  · split at h
    · cases h; decide
    · split at h
      · cases h; decide
      · cases h
  · cases h; decide

theorem prepare_rc_ok_inv (db : Option Conn) (sql : Sql) (w : World)
    (hsql : sql ≠ Sql.createKeys)
    (h : (sqlite3_prepare_v2 db sql w).rc = SQLITE_OK) :
    ∃ c f ts rows, db = some c ∧ w.nextFault.1 = Fault.ok ∧
      tablesOf c w = Except.ok (f, ts) ∧ ts.lookup KEYS = some rows := by
  unfold sqlite3_prepare_v2 at h
  cases db with
  | none => simp at h
  | some c =>
      simp only [nextFault_log, tablesOf_next_log] at h
      cases hfault : w.nextFault.1 with
      | ok =>
          cases ht : tablesOf c w with
          | error rc =>
              simp only [hfault, ht] at h
              exact absurd h (tablesOf_error_ne c w rc ht)
          | ok r =>
              obtain ⟨f, ts⟩ := r
              cases hl : ts.lookup KEYS with
              | none => simp [hfault, ht, hl, hsql] at h
              | some rows => exact ⟨c, f, ts, rows, rfl, rfl, ht, hl⟩
      | err => simp [hfault] at h
      | errCreated => simp [hfault] at h
      | nomem => simp [hfault] at h

theorem bind_rc_ok_inv (c : Conn) (st : Stmt) (idx : Nat) (text : String) (w : World)
    (h : (sqlite3_bind_text (some c) (some st) idx text w).rc = SQLITE_OK) :
    w.nextFault.1 = Fault.ok := by
  unfold sqlite3_bind_text at h
  simp only [nextFault_log] at h
  cases hfault : w.nextFault.1 <;> simp [hfault] at h ⊢

theorem step_rc_inv (c : Conn) (st : Stmt) (w : World) (rc : Nat) (hrc : rc ≠ SQLITE_IOERR)
    (h : (sqlite3_step (some c) (some st) w).rc = rc) :
    w.nextFault.1 = Fault.ok := by
  unfold sqlite3_step at h
  simp only [nextFault_log] at h
  cases hfault : w.nextFault.1 <;> simp [hfault] at h ⊢ <;> exact hrc h.symm

theorem getValue_ok_inv (s : CDatabase) (k v : String) (w : World)
    (h : (s.getValue k w).result = Except.ok v) :
    ∃ rows, s.rows w = some rows ∧ rows.lookup k = some v := by
  unfold CDatabase.getValue at h
  by_cases h1 : (sqlite3_prepare_v2 s.m_db Sql.select w).rc = SQLITE_OK
  · obtain ⟨c, f, ts, rows, hm, hf1, ht, hl⟩ :=
      prepare_rc_ok_inv s.m_db Sql.select w (by decide) h1
    refine ⟨rows, (rows_eq_some s w rows).2 ⟨c, f, ts, hm, ht, hl⟩, ?_⟩
    rw [hm, prepare_eq c Sql.select w f ts rows hf1 ht hl] at h
    simp only [ne_eq, not_true_eq_false, if_false] at h
    have ht1 : tablesOf c (w.nextFault.2.log (Call.sqlite3_prepare_v2 Sql.select))
        = Except.ok (f, ts) := by simpa using ht
    generalize w.nextFault.2.log (Call.sqlite3_prepare_v2 Sql.select) = w1 at ht1 h
    by_cases h2 : (sqlite3_bind_text
        (some { c with stmts := c.stmts + 1, errcode := SQLITE_OK })
        (some ⟨Sql.select, none, none, none, SQLITE_OK⟩) 1 k w1).rc = SQLITE_OK
    · have hf2 := bind_rc_ok_inv _ _ _ _ _ h2
      rw [bind_key_eq _ _ k w1 hf2 (by decide)] at h
      simp only [ne_eq, not_true_eq_false, if_false] at h
      have ht2 : tablesOf (Conn.setErr { c with stmts := c.stmts + 1, errcode := SQLITE_OK }
          SQLITE_OK) (w1.nextFault.2.log (Call.sqlite3_bind_text 1 k)) = Except.ok (f, ts) := by
        simpa [tablesOf, Conn.setErr] using ht1
      generalize w1.nextFault.2.log (Call.sqlite3_bind_text 1 k) = w2 at ht2 h
      by_cases h3 : (sqlite3_step
          (some (Conn.setErr { c with stmts := c.stmts + 1, errcode := SQLITE_OK } SQLITE_OK))
          (some { (⟨Sql.select, none, none, none, SQLITE_OK⟩ : Stmt) with key := some k })
          w2).rc = SQLITE_ROW
      · have hf3 := step_rc_inv _ _ _ SQLITE_ROW (by decide) h3
        rw [step_select_eq _ _ k w2 f ts rows hf3 ht2 hl rfl rfl] at h
        cases hlk : rows.lookup k with
        | none => simp [hlk] at h
        | some v0 =>
            simp [hlk, sqlite3_column_text, sqlite3_finalize] at h
            rw [h]
      · simp [h3] at h
    · simp [h2] at h
  · simp [h1] at h

/-- C2: whatever the state of the store and of the engine, when no row of the
`KEYS` table of the opened file has key `k`, `getValue(k)` ends with an
exception and returns no value. -/
theorem getValue_missing_key_fails (s : CDatabase) (k : String) (w : World)
    (hmissing : ∀ rows, s.rows w = some rows → ∀ v, (k, v) ∉ rows) :
    ∃ e, (s.getValue k w).result = Except.error e := by
  cases hres : (s.getValue k w).result with
  | error e => exact ⟨e, rfl⟩
  | ok v =>
      obtain ⟨rows, hrows, hl⟩ := getValue_ok_inv s k v w hres
      exact absurd (mem_of_lookup rows k v hl) (hmissing rows hrows v)

/-! ## A successful setValue on any engine -/

theorem setValue_ok_inv (s : CDatabase) (k v : String) (w : World)
    (h : (s.setValue k v w).result = Except.ok ()) :
    ∃ c f ts rows, s.m_db = some c ∧ tablesOf c w = Except.ok (f, ts) ∧
      ts.lookup KEYS = some rows ∧
      (s.setValue k v w).world.files =
        w.files.write (w.resolve c.path)
          { f with content := Content.database (setKeysRows ts (upsertRow rows k v)) } ∧
      (s.setValue k v w).world.resolve = w.resolve ∧
      (s.setValue k v w).self.m_db = some { c with errcode := SQLITE_OK } := by
  unfold CDatabase.setValue at h ⊢
  by_cases h1 : (sqlite3_prepare_v2 s.m_db Sql.upsert w).rc = SQLITE_OK
  · obtain ⟨c, f, ts, rows, hm, hf1, ht, hl⟩ :=
      prepare_rc_ok_inv s.m_db Sql.upsert w (by decide) h1
    refine ⟨c, f, ts, rows, hm, ht, hl, ?_⟩
    rw [hm, prepare_eq c Sql.upsert w f ts rows hf1 ht hl] at h ⊢
    simp only [ne_eq, not_true_eq_false, if_false] at h ⊢
    have ht1 : tablesOf c (w.nextFault.2.log (Call.sqlite3_prepare_v2 Sql.upsert))
        = Except.ok (f, ts) := by simpa using ht
    have hfs1 : (w.nextFault.2.log (Call.sqlite3_prepare_v2 Sql.upsert)).files = w.files := by
      simp
    have hrs1 : (w.nextFault.2.log (Call.sqlite3_prepare_v2 Sql.upsert)).resolve
        = w.resolve := by simp
    generalize w.nextFault.2.log (Call.sqlite3_prepare_v2 Sql.upsert) = w1
      at ht1 hfs1 hrs1 h ⊢
    by_cases h2 : (sqlite3_bind_text
        (some { c with stmts := c.stmts + 1, errcode := SQLITE_OK })
        (some ⟨Sql.upsert, none, none, none, SQLITE_OK⟩) 1 k w1).rc = SQLITE_OK
    · have hf2 := bind_rc_ok_inv _ _ _ _ _ h2
      rw [bind_key_eq _ _ k w1 hf2 (by decide)] at h ⊢
      simp only [ne_eq, not_true_eq_false, if_false] at h ⊢
      have ht2 : tablesOf c (w1.nextFault.2.log (Call.sqlite3_bind_text 1 k))
          = Except.ok (f, ts) := by simpa using ht1
      have hfs2 : (w1.nextFault.2.log (Call.sqlite3_bind_text 1 k)).files = w.files := by
        simp [hfs1]
      have hrs2 : (w1.nextFault.2.log (Call.sqlite3_bind_text 1 k)).resolve = w.resolve := by
        simp [hrs1]
      generalize w1.nextFault.2.log (Call.sqlite3_bind_text 1 k) = w2 at ht2 hfs2 hrs2 h ⊢
      by_cases h3 : (sqlite3_bind_text
          (some (Conn.setErr { c with stmts := c.stmts + 1, errcode := SQLITE_OK } SQLITE_OK))
          (some { (⟨Sql.upsert, none, none, none, SQLITE_OK⟩ : Stmt) with key := some k })
          2 v w2).rc = SQLITE_OK
      · have hf3 := bind_rc_ok_inv _ _ _ _ _ h3
        rw [bind_value_eq _ _ v w2 hf3 (by simp [Sql.params])] at h ⊢
        simp only [ne_eq, not_true_eq_false, if_false] at h ⊢
        have ht3 : tablesOf (Conn.setErr (Conn.setErr
            { c with stmts := c.stmts + 1, errcode := SQLITE_OK } SQLITE_OK) SQLITE_OK)
            (w2.nextFault.2.log (Call.sqlite3_bind_text 2 v)) = Except.ok (f, ts) := by
          simpa [tablesOf, Conn.setErr] using ht2
        have hfs3 : (w2.nextFault.2.log (Call.sqlite3_bind_text 2 v)).files = w.files := by
          simp [hfs2]
        have hrs3 : (w2.nextFault.2.log (Call.sqlite3_bind_text 2 v)).resolve
            = w.resolve := by simp [hrs2]
        generalize w2.nextFault.2.log (Call.sqlite3_bind_text 2 v) = w3 at ht3 hfs3 hrs3 h ⊢
        by_cases h4 : (sqlite3_step
            (some (Conn.setErr (Conn.setErr
              { c with stmts := c.stmts + 1, errcode := SQLITE_OK } SQLITE_OK) SQLITE_OK))
            (some { ({ (⟨Sql.upsert, none, none, none, SQLITE_OK⟩ : Stmt) with key := some k })
              with value := some v })
            w3).rc = SQLITE_DONE
        · have hf4 := step_rc_inv _ _ _ SQLITE_DONE (by decide) h4
          rw [step_upsert_eq _ _ k v w3 f ts rows hf4 ht3 hl rfl rfl rfl]
          have hfs4 : (w3.nextFault.2.log Call.sqlite3_step).files = w.files := by simp [hfs3]
          have hrs4 : (w3.nextFault.2.log Call.sqlite3_step).resolve = w.resolve := by
            simp [hrs3]
          generalize w3.nextFault.2.log Call.sqlite3_step = w4 at hfs4 hrs4 ⊢
          simp [hfs4, hrs4, sqlite3_finalize, Conn.setErr, writeTables]
        · simp [h4] at h
      · simp [h3] at h
    · simp [h2] at h
  · simp [h1] at h

theorem open_existing_ok (s : CDatabase) (path : String) (w : World) (f : File)
    (hfile : w.fs path = some f)
    (hok : (s.open path w).result = Except.ok ()) :
    (s.open path w).world.fs = w.fs ∧
    (s.open path w).self.m_db = some ⟨path, true, 0, SQLITE_OK⟩ ∧
    (s.open path w).world.calls =
      (s.close w).2.calls ++ [Call.access path, Call.sqlite3_open path] ∧
    (s.open path w).world.resolve = w.resolve := by
  unfold CDatabase.open at hok ⊢
  simp only [access, close_fs, hfile, Option.isSome_some, if_true, ne_eq, not_true_eq_false,
    if_false] at hok ⊢
  by_cases h1 : ((s.close w).2.log (Call.access path)).nextFault.1 = Fault.ok
  · rw [sqlite3_open_of_ok path _ h1] at hok ⊢
    rw [ensureFile_of_some path _ (by simp [hfile])]
    simp
  · have hrc : (sqlite3_open path ((s.close w).2.log (Call.access path))).rc ≠ SQLITE_OK :=
      fun h => h1 ((sqlite3_open_rc path _).1 h)
    simp [hrc] at hok

theorem open_ok_m_db (s : CDatabase) (path : String) (w : World)
    (hok : (s.open path w).result = Except.ok ()) :
    (s.open path w).self.m_db = some ⟨path, true, 0, SQLITE_OK⟩ ∧
    (s.open path w).world.resolve = w.resolve ∧
    ∀ q, w.resolve q ≠ w.resolve path → (s.open path w).world.fs q = w.fs q := by
  cases hfile : w.fs path with
  | none =>
      obtain ⟨-, h2, h3, h4⟩ := open_missing_ok s path w hfile hok
      exact ⟨h3, h4, h2⟩
  | some f =>
      obtain ⟨h1, h2, -, h4⟩ := open_existing_ok s path w f hfile hok
      exact ⟨h2, h4, fun q _ => by rw [h1]⟩

/-- C8: when a file holding a database with the `KEYS` table (unique keys)
exists at `path` and `open(path)` succeeds, the only calls `open` makes after
closing the previous connection are the existence test and the engine open (no
schema statement is executed), every file is left as it was, and for every
record `(k, v)` of the file `getValue(k)` then returns `v` (on an engine that
meets no environmental failure during the lookup). -/
theorem open_existing_preserves_records (s : CDatabase) (path : String) (w : World)
    (f : File) (ts : List (String × Rows)) (rows : Rows)
    (hfile : w.fs path = some f) (hdb : f.content = Content.database ts)
    (hkeys : ts.lookup KEYS = some rows) (hnodup : (rows.map Prod.fst).Nodup)
    (hok : (s.open path w).result = Except.ok ()) :
    (s.open path w).world.calls =
      (s.close w).2.calls ++ [Call.access path, Call.sqlite3_open path] ∧
    (s.open path w).world.fs = w.fs ∧
    ∀ k v, (k, v) ∈ rows → (s.open path w).world.faultFree →
      ((s.open path w).self.getValue k (s.open path w).world).result = Except.ok v := by
  obtain ⟨hfs, hm, hcalls, -⟩ := open_existing_ok s path w f hfile hok
  refine ⟨hcalls, hfs, ?_⟩
  intro k v hmem hfree
  have hrows : (s.open path w).self.rows (s.open path w).world = some rows := by
    rw [rows_eq_some]
    exact ⟨_, f, ts, hm, (tablesOf_ok_iff _ _ _ _).2 ⟨rfl, by rw [hfs]; exact hfile, hdb⟩, hkeys⟩
  rw [getValue_rows _ k _ rows hrows hfree, lookup_of_mem rows k v hnodup hmem]

/-! ## Re-opening on another path -/

/-- C7, as stated, fails in two ways.  With a database at `/b.db` that already
holds a row for `x`, the sequence open `/a.db`, set `x` to `1`, open `/b.db`
succeeds and `getValue("x")` then returns the value stored in `/b.db`.  And
with `/d/./a.db` naming the same file as `/d/a.db`, the two paths differ, the
sequence open `/d/a.db`, set `x` to `1`, open `/d/./a.db` succeeds and
`getValue("x")` returns `1`. -/
theorem reopen_other_path_counterexample :
    ("/a.db" ≠ "/b.db" ∧
      (reopenRun "/a.db" "/b.db" CDatabase.ctor
        (World.init (singleDb "/b.db" 0o666 [("x", "2")]) [])).openA.result = Except.ok () ∧
      (reopenRun "/a.db" "/b.db" CDatabase.ctor
        (World.init (singleDb "/b.db" 0o666 [("x", "2")]) [])).set.result = Except.ok () ∧
      (reopenRun "/a.db" "/b.db" CDatabase.ctor
        (World.init (singleDb "/b.db" 0o666 [("x", "2")]) [])).openB.result = Except.ok () ∧
      (reopenRun "/a.db" "/b.db" CDatabase.ctor
        (World.init (singleDb "/b.db" 0o666 [("x", "2")]) [])).get.result = Except.ok "2") ∧
    ("/d/a.db" ≠ "/d/./a.db" ∧
      (reopenRun "/d/a.db" "/d/./a.db" CDatabase.ctor
        ((World.init emptyFS []).withAlias "/d/./a.db" "/d/a.db")).openA.result
        = Except.ok () ∧
      (reopenRun "/d/a.db" "/d/./a.db" CDatabase.ctor
        ((World.init emptyFS []).withAlias "/d/./a.db" "/d/a.db")).set.result
        = Except.ok () ∧
      (reopenRun "/d/a.db" "/d/./a.db" CDatabase.ctor
        ((World.init emptyFS []).withAlias "/d/./a.db" "/d/a.db")).openB.result
        = Except.ok () ∧
      (reopenRun "/d/a.db" "/d/./a.db" CDatabase.ctor
        ((World.init emptyFS []).withAlias "/d/./a.db" "/d/a.db")).get.result
        = Except.ok "1") := by
  refine ⟨⟨by decide, by decide, by decide, by decide, by decide⟩,
    ⟨by decide, by decide, by decide, by decide, by decide⟩⟩

/-- C7, amended: for paths `pathA` and `pathB` that name different files (which
is more than being different strings) and such that the file `pathB` names, if
there is one, holds no row of `KEYS` with key `x`: after `open(pathA)`,
`setValue("x", "1")` and `open(pathB)` all succeed, `getValue("x")` ends with
an exception. -/
theorem reopen_other_path_isolated (pathA pathB : String) (s : CDatabase) (w : World)
    (hne : w.resolve pathA ≠ w.resolve pathB)
    (hnokey : ∀ f ts rows, w.fs pathB = some f → f.content = Content.database ts →
      ts.lookup KEYS = some rows → ∀ v, ("x", v) ∉ rows)
    (hA : (reopenRun pathA pathB s w).openA.result = Except.ok ())
    (hS : (reopenRun pathA pathB s w).set.result = Except.ok ())
    (hB : (reopenRun pathA pathB s w).openB.result = Except.ok ()) :
    ∃ e, (reopenRun pathA pathB s w).get.result = Except.error e := by
  simp only [reopenRun] at hA hS hB ⊢
  obtain ⟨hmA, hrA, hfsA⟩ := open_ok_m_db s pathA w hA
  generalize s.open pathA w = rA at hmA hrA hfsA hS hB ⊢
  obtain ⟨c, f0, ts0, rows0, hmc, -, -, hfsS, hrS, -⟩ := setValue_ok_inv _ _ _ _ hS
  have hc : c.path = pathA := by
    rw [hmA] at hmc
    cases hmc; rfl
  have hfsB : (rA.self.setValue "x" "1" rA.world).world.fs pathB = w.fs pathB := by
    rw [(fs_of_write _ rA.world c.path _ hfsS hrS).2 pathB
      (by rw [hc, hrA]; exact fun h => hne h.symm)]
    exact hfsA pathB (fun h => hne h.symm)
  generalize rA.self.setValue "x" "1" rA.world = rS at hfsB hB ⊢
  cases hres : (rS.self.open pathB rS.world).self.getValue "x"
      (rS.self.open pathB rS.world).world |>.result with
  | error e => exact ⟨e, rfl⟩
  | ok v =>
      exfalso
      obtain ⟨rows, hrows, hlk⟩ := getValue_ok_inv _ _ _ _ hres
      have hmem := mem_of_lookup rows "x" v hlk
      obtain ⟨cB, fB, tsB, hmB, htB, hlB⟩ := (rows_eq_some _ _ _).1 hrows
      obtain ⟨-, hfB, hcB⟩ := (tablesOf_ok_iff _ _ _ _).1 htB
      cases hfile : rS.world.fs pathB with
      | none =>
          obtain ⟨h1, -, h3, -⟩ := open_missing_ok rS.self pathB rS.world hfile hB
          rw [h3] at hmB
          cases hmB
          rw [h1] at hfB
          cases hfB
          cases hcB
          simp [List.lookup] at hlB
          subst hlB
          simp at hmem
      | some f =>
          obtain ⟨h1, h2, -, -⟩ := open_existing_ok rS.self pathB rS.world f hfile hB
          rw [h2] at hmB
          cases hmB
          rw [h1] at hfB
          exact hnokey fB tsB rows (by rw [← hfsB]; exact hfB) hcB hlB v hmem

/-- Witness for C7 (amended): `/b.db` exists and holds a row for another key. -/
theorem reopen_other_path_isolated_witness :
    ∃ e, (reopenRun "/a.db" "/b.db" CDatabase.ctor
      (World.init (singleDb "/b.db" 0o666 [("y", "2")]) [])).get.result = Except.error e :=
  reopen_other_path_isolated "/a.db" "/b.db" CDatabase.ctor
    (World.init (singleDb "/b.db" 0o666 [("y", "2")]) [])
    (by decide)
    (by
      intro f ts rows hf hc hl v
      simp [World.init, World.fs, singleDb] at hf
      subst hf
      cases hc
      simp [List.lookup] at hl
      subst hl
      simp)
    (by decide) (by decide) (by decide)

/-! ## Witnesses and evaluations -/

/-- Witness for C1: a store open on a database that already maps `name` to
`bob`; two writes and a read on a fault-free engine. -/
theorem setValue_setValue_getValue_witness :
    ((((openStore "/tmp/db1").setValue "name" "carol"
        (World.init (singleDb "/tmp/db1" 0o666 [("name", "bob")]) [])).self.setValue
        "name" "alice"
        ((openStore "/tmp/db1").setValue "name" "carol"
          (World.init (singleDb "/tmp/db1" 0o666 [("name", "bob")]) [])).world).self.getValue
      "name"
      (((openStore "/tmp/db1").setValue "name" "carol"
        (World.init (singleDb "/tmp/db1" 0o666 [("name", "bob")]) [])).self.setValue
        "name" "alice"
        ((openStore "/tmp/db1").setValue "name" "carol"
          (World.init (singleDb "/tmp/db1" 0o666 [("name", "bob")]) [])).world).world).result
      = Except.ok "alice" :=
  (setValue_setValue_getValue (openStore "/tmp/db1")
    (World.init (singleDb "/tmp/db1" 0o666 [("name", "bob")]) []) "name" "carol" "alice"
    (by decide) (by decide)).2.2.1

/-- Witness for C2: the table holds a row for `name` only and `age` is read. -/
theorem getValue_missing_key_fails_witness :
    ∃ e, ((openStore "/tmp/db1").getValue "age"
      (World.init (singleDb "/tmp/db1" 0o666 [("name", "bob")]) [])).result = Except.error e :=
  getValue_missing_key_fails (openStore "/tmp/db1") "age"
    (World.init (singleDb "/tmp/db1" 0o666 [("name", "bob")]) [])
    (by
      intro rows hrows v
      have h : rows = [("name", "bob")] := by
        have h0 : (openStore "/tmp/db1").rows
            (World.init (singleDb "/tmp/db1" 0o666 [("name", "bob")]) [])
            = some [("name", "bob")] := by decide
        rw [h0] at hrows
        cases hrows; rfl
      subst h
      simp)

/-- Witness for C3 (amended): the engine open succeeds and creates the file,
the CREATE TABLE statement fails, and the `unlink` of the handler succeeds. -/
theorem open_failure_leaves_no_file_witness :
    (CDatabase.ctor.open "/d/sst_app.db" (World.init emptyFS [Fault.ok, Fault.err])).result
      = Except.error "disk I/O error" ∧
    (CDatabase.ctor.open "/d/sst_app.db"
      (World.init emptyFS [Fault.ok, Fault.err])).world.fs "/d/sst_app.db" = none :=
  ⟨by decide,
    open_failure_leaves_no_file CDatabase.ctor "/d/sst_app.db"
      (World.init emptyFS [Fault.ok, Fault.err]) "disk I/O error" (by decide) (by decide)
      (by decide)⟩

/-- Witness for C8: a store already open elsewhere is opened on an existing
database holding two records. -/
theorem open_existing_preserves_records_witness :
    (((openStore "/tmp/db1").open "/tmp/db2"
        (World.init (singleDb "/tmp/db2" 0o600 [("a", "1"), ("b", "2")]) [])).self.getValue "b"
      ((openStore "/tmp/db1").open "/tmp/db2"
        (World.init (singleDb "/tmp/db2" 0o600 [("a", "1"), ("b", "2")]) [])).world).result
      = Except.ok "2" :=
  (open_existing_preserves_records (openStore "/tmp/db1") "/tmp/db2"
    (World.init (singleDb "/tmp/db2" 0o600 [("a", "1"), ("b", "2")]) [])
    ⟨0o600, Content.database [(KEYS, [("a", "1"), ("b", "2")])]⟩
    [(KEYS, [("a", "1"), ("b", "2")])] [("a", "1"), ("b", "2")]
    (by decide) rfl (by decide) (by decide) (by decide)).2.2 "b" "2" (by decide) (by decide)

/-- C4, evaluated where it fails: a file exists at the path and the engine
cannot open it.  `open` ends with an exception and the store still holds the
connection object the engine returned; `close` is what would drop it. -/
theorem open_existing_failure_keeps_handle :
    (CDatabase.ctor.open "/d/sst_app.db"
      (World.init (singleDb "/d/sst_app.db" 0o666 []) [Fault.err])).result
      = Except.error "unable to open database file" ∧
    (CDatabase.ctor.open "/d/sst_app.db"
      (World.init (singleDb "/d/sst_app.db" 0o666 []) [Fault.err])).self.m_db
      = some ⟨"/d/sst_app.db", false, 0, SQLITE_CANTOPEN⟩ ∧
    (CDatabase.ctor.open "/d/sst_app.db"
      (World.init (singleDb "/d/sst_app.db" 0o666 []) [Fault.err])).self.m_db ≠ none := by
  refine ⟨by decide, by decide, by decide⟩

/-- C10, evaluated where it fails: reading a key that has no row on a
fault-free engine, and writing when the engine fails at the step, both end with
an exception and leave one more prepared statement on the connection than
before the call. -/
theorem statement_not_finalized_on_failure :
    (openStore "/tmp/db1").openStmts = 0 ∧
    (∃ e, ((openStore "/tmp/db1").getValue "missing"
      (World.init (singleDb "/tmp/db1" 0o666 []) [])).result = Except.error e) ∧
    ((openStore "/tmp/db1").getValue "missing"
      (World.init (singleDb "/tmp/db1" 0o666 []) [])).self.openStmts = 1 ∧
    (∃ e, ((openStore "/tmp/db1").setValue "k" "v"
      (World.init (singleDb "/tmp/db1" 0o666 [])
        [Fault.ok, Fault.ok, Fault.ok, Fault.err])).result = Except.error e) ∧
    ((openStore "/tmp/db1").setValue "k" "v"
      (World.init (singleDb "/tmp/db1" 0o666 [])
        [Fault.ok, Fault.ok, Fault.ok, Fault.err])).self.openStmts = 1 := by
  refine ⟨by decide, ⟨_, rfl⟩, by decide, ⟨_, rfl⟩, by decide⟩

/-! ## The JNI entry point -/

/-- C9, as stated, fails: when `GetStringUTFChars` yields no characters for
`localDataPath`, `sstCreate` ends with the exception of `c_str` before any
file call is made, while with a non-null local path and the same external
path the database is opened. -/
theorem sstCreate_local_path_counterexample :
    (Java_com_example_shared_1storage_MainActivity_sstCreate none (some "/ext")
      CDatabase.ctor (World.init emptyFS [])).result = Except.error "String is null" ∧
    (Java_com_example_shared_1storage_MainActivity_sstCreate none (some "/ext")
      CDatabase.ctor (World.init emptyFS [])).world.calls = [] ∧
    (Java_com_example_shared_1storage_MainActivity_sstCreate (some "/local") (some "/ext")
      CDatabase.ctor (World.init emptyFS [])).result = Except.ok () ∧
    (Java_com_example_shared_1storage_MainActivity_sstCreate (some "/local") (some "/ext")
      CDatabase.ctor (World.init emptyFS [])).world.calls =
      [Call.access "/ext/sst_app.db", Call.sqlite3_open "/ext/sst_app.db",
        Call.chmod "/ext/sst_app.db" 0o666, Call.sqlite3_exec Sql.createKeys] := by
  refine ⟨by decide, by decide, by decide, by decide⟩

/-- C9, amended: for any two local paths whose characters were obtained
(non-null), `sstCreate` has the same outcome, object and world; with the
characters of the external path obtained too, it is exactly `open` on the
external path followed by `/sst_app.db`; and when the characters of the local
path are null it raises `String is null` and touches neither store nor world. -/
theorem sstCreate_ignores_local_path (local1 local2 ext : String) (externalDataPath : jstring)
    (g : CDatabase) (w : World) :
    Java_com_example_shared_1storage_MainActivity_sstCreate (some local1) externalDataPath g w
      = Java_com_example_shared_1storage_MainActivity_sstCreate (some local2)
          externalDataPath g w ∧
    Java_com_example_shared_1storage_MainActivity_sstCreate (some local1) (some ext) g w
      = g.open (ext ++ "/sst_app.db") w ∧
    Java_com_example_shared_1storage_MainActivity_sstCreate none externalDataPath g w
      = ⟨Except.error "String is null", g, w⟩ :=
  ⟨rfl, rfl, rfl⟩

end SharedStorage
